import Mathlib

/-!
Shallow embedding of the FanzDash health-monitoring and control-plane core:
`src/system_integration.py` (class `SystemIntegration`) and
`src/fanz_central_command.py` (class `FanzCentralCommand`).

Network and database effects are made explicit parameters:
* a probe of one service is an `Except String Nat` — `.error e` is a raised
  transport exception with message `e`, `.ok code` is a completed HTTP
  response with status `code`;
* success or failure of one database write/read is a `Bool` parameter
  (`dbOk`), standing for whether `asyncpg.connect`/`execute`/`fetch` raised.

Timestamps (`datetime.utcnow()`) are abstracted to a `Nat` parameter `now`.
Python dicts are modelled as insertion-ordered association lists, which
matches CPython semantics (overwrite keeps position, new key appends).
Strings built with f-interpolation are rebuilt with `++`; emoji prefixes
present in the source strings are kept out of the picture by the claims
(they only speak of the "CRITICAL"/"Warning" wording), so the embedding
keeps the ASCII part of each message.
-/

namespace FanzDash

/-- Outcome of one network probe: a raised transport exception (with its
`str(e)` message) or a completed response with an HTTP status code. -/
abbrev ProbeOutcome := Except String Nat

/-- Entry of `SystemIntegration.services`: `{"url": ..., "critical": ...}`. -/
structure ServiceConfig where
  url : String
  critical : Bool
deriving Repr, DecidableEq

/-- The dict returned by `SystemIntegration.check_service_health`.
`response_code` is present only on the reachable branch, `error` only on
the exception branch. -/
structure ServiceCheckResult where
  service : String
  url : String
  status : String
  critical : Bool
  response_code : Option Nat
  error : Option String
deriving Repr, DecidableEq

/-- Python `str(e)[:100]` : truncation to the first 100 characters
(code points), embedded on the underlying character list. -/
def truncate100 (e : String) : String := String.mk (e.data.take 100)

/-- Embedding of `SystemIntegration.check_service_health` (system_integration.py lines
40-60): reachable with HTTP 200 gives `"healthy"`, reachable with any other
code gives `"unhealthy"`, any exception (timeout, connection refused, ...)
is caught and gives `"down"` with `error = str(e)[:100]`.  The function is
total: every outcome produces a `ServiceCheckResult`, nothing propagates. -/
def check_service_health (name : String) (config : ServiceConfig)
    (outcome : ProbeOutcome) : ServiceCheckResult :=
  match outcome with
  | .ok code =>
      { service := name
        url := config.url
        status := if code = 200 then "healthy" else "unhealthy"
        critical := config.critical
        response_code := some code
        error := none }
  | .error e =>
      { service := name
        url := config.url
        status := "down"
        critical := config.critical
        response_code := none
        error := some (truncate100 e) }

/-- The dict returned by `check_database_health`: only its `status` field
(`"healthy"` or `"unhealthy"`) is consumed by the aggregation code. -/
structure DbHealth where
  status : String
deriving Repr, DecidableEq

/-- Embedding of `critical_services_up` (system_integration.py lines 160-163):
`all(s["status"] in ["healthy", "down"] and not (s["critical"] and
s["status"] == "down") for s in service_checks)`. -/
def critical_services_up (service_checks : List ServiceCheckResult) : Bool :=
  service_checks.all fun s =>
    (s.status = "healthy" || s.status = "down")
      && !(s.critical && s.status = "down")

/-- Embedding of `healthy_services` (line 165): count of checks with status `"healthy"`. -/
def healthy_services (service_checks : List ServiceCheckResult) : Nat :=
  (service_checks.filter fun s => s.status = "healthy").length

/-- The `overall_status` field of the report (line 170):
`"operational" if critical_services_up else "degraded"`. -/
def overall_status (service_checks : List ServiceCheckResult) : String :=
  if critical_services_up service_checks then "operational" else "degraded"

/-- Python `round(x, 2)` on the exact rational value: round to a multiple
of 1/100.  (CPython rounds ties to even on binary floats; `round` here is
round-half-up on ℚ.  No claim settled below depends on the direction of an
exact tie, and none of the concrete inputs used hit one.) -/
def round2 (x : ℚ) : ℚ := (round (x * 100) : ℤ) / 100

/-- The `percentage` field (line 174):
`round(healthy_services / total_services * 100, 2)`.  There is no guard:
when `total = 0` Python raises `ZeroDivisionError`, embedded as `none`. -/
def percentage (healthy total : Nat) : Option ℚ :=
  if total = 0 then none
  else some (round2 ((healthy : ℚ) / (total : ℚ) * 100))

/-- Embedding of `SystemIntegration.generate_recommendations` (lines 181-203): one
message per down service in input order, worded `CRITICAL`/`Warning` by the
criticality flag; then a database message when `db_health["status"] !=
"healthy"`; then the all-operational message when every check is healthy;
a fallback message when the list would be empty. -/
def generate_recommendations (service_checks : List ServiceCheckResult)
    (db_health : DbHealth) : List String :=
  let down_services := service_checks.filter fun s => s.status = "down"
  let recs1 := down_services.map fun s =>
    if s.critical then
      "CRITICAL: " ++ s.service ++ " is down - system functionality impaired"
    else
      "Warning: " ++ s.service ++ " is down - some features unavailable"
  let recs2 := recs1 ++
    (if db_health.status ≠ "healthy" then
      ["Database connection issues detected - check DATABASE_URL"]
    else [])
  let healthy_count := (service_checks.filter fun s => s.status = "healthy").length
  let recs3 := recs2 ++
    (if healthy_count = service_checks.length then
      ["All services operational - system ready for production"]
    else [])
  if recs3 = [] then ["System operating normally"] else recs3

/-- The value returned by `SystemIntegration.run_full_health_check`
(fields the claims are about; `timestamp` abstracted away). -/
structure FullHealthReport where
  overall_status : String
  healthy : Nat
  total : Nat
  percentage : ℚ
  details : List ServiceCheckResult
  database : DbHealth
  recommendations : List String
deriving Repr, DecidableEq

/-- Embedding of `SystemIntegration.run_full_health_check` (lines 143-179), with one
probe outcome per configured service and the database health as inputs.
`none` embeds the uncaught `ZeroDivisionError` raised at line 174 when the
service list is empty (the source has no guard). -/
def run_full_health_check
    (inputs : List (String × ServiceConfig × ProbeOutcome))
    (db_health : DbHealth) : Option FullHealthReport :=
  let service_checks := inputs.map fun x => check_service_health x.1 x.2.1 x.2.2
  let healthy := healthy_services service_checks
  let total := service_checks.length
  match percentage healthy total with
  | none => none
  | some p =>
      some { overall_status := overall_status service_checks
             healthy := healthy
             total := total
             percentage := p
             details := service_checks
             database := db_health
             recommendations := generate_recommendations service_checks db_health }

/-- The `FanzPlatform` dataclass (fanz_central_command.py lines 19-27); the
mutable `status`/`last_health_check` fields are produced by classification
and are not part of the registry input here. -/
structure FanzPlatform where
  platform_id : String
  name : String
  url : String
  critical : Bool
deriving Repr, DecidableEq

/-- The platform-probe branch of `run_ecosystem_health_check` (lines
91-105): HTTP 200 sets `"healthy"`; any other code sets `"degraded"` and,
for a critical platform, appends `"<name> is degraded"`; an exception sets
`"down"` and, for a critical platform, appends `"<name> is down: <e>"`.
Returns the assigned status together with the critical-issue messages the
iteration appends (a list of length 0 or 1). -/
def classify_platform (p : FanzPlatform) (outcome : ProbeOutcome) :
    String × List String :=
  match outcome with
  | .ok code =>
      if code = 200 then ("healthy", [])
      else ("degraded", if p.critical then [p.name ++ " is degraded"] else [])
  | .error e =>
      ("down", if p.critical then [p.name ++ " is down: " ++ e] else [])

/-- The `critical_issues` list accumulated by the platform loop of
`run_ecosystem_health_check` (lines 88-105), in iteration order. -/
def collect_critical_issues (inputs : List (FanzPlatform × ProbeOutcome)) :
    List String :=
  inputs.flatMap fun pe => (classify_platform pe.1 pe.2).2

/-- The `ecosystem_status` field (line 117):
`"healthy" if not critical_issues else "critical"`. -/
def ecosystem_status (inputs : List (FanzPlatform × ProbeOutcome)) : String :=
  if collect_critical_issues inputs = [] then "healthy" else "critical"

/-- The fields of the `health_report` dict built by
`run_ecosystem_health_check` (lines 119-126) that the claims are about
(`timestamp`, the TaskSpark sub-report and the static payment-processor
table are carried through unchanged and abstracted away). -/
structure EcosystemReport where
  ecosystem_status : String
  platforms : List (String × String)
  critical_issues : List String
deriving Repr, DecidableEq

/-- Embedding of `run_ecosystem_health_check` (lines 84-129) as a report builder: one
probe outcome per registered platform, in registry order.  The per-platform
dict of line 107-112 is abstracted to `(platform_id, status)`.  The audit
append of line 128 goes through `log_audit_action` below and never alters
the returned report. -/
def run_ecosystem_health_check (inputs : List (FanzPlatform × ProbeOutcome)) :
    EcosystemReport :=
  { ecosystem_status := ecosystem_status inputs
    platforms := inputs.map fun pe =>
      (pe.1.platform_id, (classify_platform pe.1 pe.2).1)
    critical_issues := collect_critical_issues inputs }

/-- Value stored in `self.feature_flags[flag_key]` (lines 281-285). -/
structure FlagRecord where
  enabled : Bool
  set_at : Nat
  reason : String
deriving Repr, DecidableEq

/-- Value stored in `self.emergency_stops[platform_id]` (lines 266-270). -/
structure StopRecord where
  stopped_at : Nat
  reason : String
  stopped_by : String
deriving Repr, DecidableEq

/-- One row of the `audit_logs` table as inserted by `log_audit_action`
(lines 252-255); the JSON `metadata` payload is abstracted to ordered
key-value pairs, `created_at` to a `Nat`. -/
structure AuditEntry where
  actor_id : String
  action : String
  target_type : Option String
  target_id : Option String
  metadata : List (String × String)
  created_at : Nat
deriving Repr, DecidableEq

/-- Python-dict upsert on an insertion-ordered association list: an
existing key keeps its position and gets the new value, a new key is
appended. -/
def dictInsert {α : Type} (m : List (String × α)) (k : String) (v : α) :
    List (String × α) :=
  if m.any (fun p => p.1 = k) then
    m.map fun p => if p.1 = k then (k, v) else p
  else m ++ [(k, v)]

/-- Lookup in an insertion-ordered association list. -/
def dictGet {α : Type} (m : List (String × α)) (k : String) : Option α :=
  (m.find? fun p => p.1 = k).map Prod.snd

/-- The mutable state of `FanzCentralCommand` relevant to the claims,
plus the external `audit_logs` database table (oldest entry first; the
`ORDER BY created_at DESC` read reverses it). -/
structure CommandState where
  platforms : List String
  feature_flags : List (String × FlagRecord)
  emergency_stops : List (String × StopRecord)
  audit_logs : List AuditEntry
deriving Repr, DecidableEq

/-- Embedding of `FanzCentralCommand.log_audit_action` (lines 247-258): attempts one
INSERT into `audit_logs`; the whole body is inside `try/except`, so a
failed connection or write (`dbOk = false`) only logs the error and the
caller never sees an exception — the function always returns a state. -/
def log_audit_action (dbOk : Bool) (now : Nat) (s : CommandState)
    (actor_id action : String) (target_type target_id : Option String)
    (metadata : List (String × String)) : CommandState :=
  if dbOk then
    { s with audit_logs := s.audit_logs ++
        [{ actor_id := actor_id, action := action, target_type := target_type,
           target_id := target_id, metadata := metadata, created_at := now }] }
  else s

/-- Embedding of `FanzCentralCommand.emergency_stop_platform` (lines 261-276): raises
`ValueError("Unknown platform: ...")` before touching any state when the
id is not a key of `self.platforms`; otherwise overwrites the stop record
and then writes one `emergency_stop` audit entry.  The returned pair is
(post-state, raised exception or unit). -/
def emergency_stop_platform (dbOk : Bool) (now : Nat) (s : CommandState)
    (platform_id reason : String) : CommandState × Except String Unit :=
  if platform_id ∈ s.platforms then
    let record : StopRecord :=
      { stopped_at := now, reason := reason, stopped_by := "FANZDASH_CENTRAL" }
    let s1 :=
      { s with emergency_stops := dictInsert s.emergency_stops platform_id record }
    (log_audit_action dbOk now s1 "FANZDASH_CENTRAL" "emergency_stop"
        (some "platform") (some platform_id) [("reason", reason)],
     Except.ok ())
  else
    (s, Except.error ("Unknown platform: " ++ platform_id))

/-- Embedding of `FanzCentralCommand.set_feature_flag` (lines 278-289): upserts
`self.feature_flags[f"platform_id:feature"]` — with no registration check
of `platform_id` — then writes one `feature_flag_changed` audit entry.
Total: it cannot fail. -/
def set_feature_flag (dbOk : Bool) (now : Nat) (s : CommandState)
    (platform_id feature : String) (enabled : Bool) (reason : String) :
    CommandState :=
  let flag_key := platform_id ++ ":" ++ feature
  let record : FlagRecord := { enabled := enabled, set_at := now, reason := reason }
  let s1 := { s with feature_flags := dictInsert s.feature_flags flag_key record }
  log_audit_action dbOk now s1 "FANZDASH_CENTRAL" "feature_flag_changed"
    (some "feature") (some flag_key)
    [("enabled", toString enabled), ("reason", reason)]

/-- Embedding of `FanzCentralCommand.get_recent_audit_logs` (lines 306-321): SELECT
newest-first with LIMIT; the whole body is inside `try/except`, so any
connection or query failure (`dbOk = false`) returns `[]`. -/
def get_recent_audit_logs (dbOk : Bool) (s : CommandState) (limit : Nat) :
    List AuditEntry :=
  if dbOk then s.audit_logs.reverse.take limit else []

/-- The dict returned by `get_ecosystem_dashboard_data` (lines 291-304),
`timestamp` and the static payment-processor table abstracted away. -/
structure DashboardData where
  ecosystem_health : EcosystemReport
  feature_flags : List (String × FlagRecord)
  emergency_stops : List (String × StopRecord)
  recent_audit_logs : List AuditEntry
deriving Repr, DecidableEq

/-- Embedding of `FanzCentralCommand.get_ecosystem_dashboard_data`: runs the ecosystem
health check (its probe outcomes are the `inputs` parameter), then reads
the in-memory maps and the recent audit entries (default limit 50). -/
def get_ecosystem_dashboard_data (dbOk : Bool) (s : CommandState)
    (inputs : List (FanzPlatform × ProbeOutcome)) : DashboardData :=
  { ecosystem_health := run_ecosystem_health_check inputs
    feature_flags := s.feature_flags
    emergency_stops := s.emergency_stops
    recent_audit_logs := get_recent_audit_logs dbOk s 50 }

/-- Observable outcome of one iteration of the `while True` body of
`continuous_health_monitoring` (lines 144-157). -/
inductive CycleResult where
  | alerted (issues : List String)
  | quiet
  | errorLogged (msg : String)
deriving Repr, DecidableEq

/-- One iteration of `continuous_health_monitoring` (lines 146-155): the
cycle outcome (the report's `critical_issues`, or any exception raised by
the check or alert step) is injected.  The `try/except` catches every
exception, logs it and falls through to the sleep — no outcome escapes. -/
def run_monitor_cycle (outcome : Except String (List String)) : CycleResult :=
  match outcome with
  | .ok issues => if issues = [] then .quiet else .alerted issues
  | .error e => .errorLogged e

/-- The `while True` loop of `continuous_health_monitoring`, run over a
finite schedule of injected cycle outcomes: each scheduled cycle executes
`run_monitor_cycle` and the loop continues to the next one regardless of
the previous cycle's outcome. -/
def continuous_health_monitoring (outcomes : List (Except String (List String))) :
    List CycleResult :=
  outcomes.map run_monitor_cycle

/-! ## Theorems -/

/-- C9: an exception raised inside one cycle of the monitor loop is caught
and logged, and every subsequently scheduled cycle still runs: over any
schedule of injected cycle outcomes containing a failure, the failing
cycle contributes exactly one logged error and the loop processes the
whole schedule (one result per scheduled cycle, before and after the
failure). -/
theorem monitor_loop_survives_cycle_failure
    (pre post : List (Except String (List String))) (e : String) :
    continuous_health_monitoring (pre ++ Except.error e :: post) =
      continuous_health_monitoring pre ++
        CycleResult.errorLogged e :: continuous_health_monitoring post ∧
    (continuous_health_monitoring (pre ++ Except.error e :: post)).length =
      pre.length + 1 + post.length := by
  constructor
  · simp [continuous_health_monitoring, run_monitor_cycle]
  · simp [continuous_health_monitoring]
    omega

/-- C10: when the audit store cannot be reached, `get_recent_audit_logs`
returns the empty list instead of raising, and the dashboard snapshot
still carries the ecosystem health report, the feature flags and the
emergency stops of the in-memory state, with `recent_audit_logs` silently
degraded to `[]`. -/
theorem audit_read_failure_degrades_silently
    (s : CommandState) (inputs : List (FanzPlatform × ProbeOutcome))
    (limit : Nat) :
    get_recent_audit_logs false s limit = [] ∧
    (get_ecosystem_dashboard_data false s inputs).recent_audit_logs = [] ∧
    (get_ecosystem_dashboard_data false s inputs).feature_flags =
      s.feature_flags ∧
    (get_ecosystem_dashboard_data false s inputs).emergency_stops =
      s.emergency_stops ∧
    (get_ecosystem_dashboard_data false s inputs).ecosystem_health =
      run_ecosystem_health_check inputs :=
  ⟨rfl, rfl, rfl, rfl, rfl⟩

/-- C5: `emergency_stop_platform` on an id missing from the platform
registry raises `Unknown platform` and leaves the whole state — in
particular the emergency-stops map and the audit log — untouched; on a
registered id it overwrites the stop record under that key and appends
exactly one `emergency_stop` audit entry when the audit write succeeds
(and none when it fails, still acknowledging the stop). -/
theorem emergency_stop_registry_check
    (dbOk : Bool) (now : Nat) (s : CommandState) (platform_id reason : String) :
    (platform_id ∉ s.platforms →
      emergency_stop_platform dbOk now s platform_id reason =
        (s, Except.error ("Unknown platform: " ++ platform_id))) ∧
    (platform_id ∈ s.platforms →
      (emergency_stop_platform dbOk now s platform_id reason).2 =
        Except.ok () ∧
      (emergency_stop_platform dbOk now s platform_id reason).1.emergency_stops =
        dictInsert s.emergency_stops platform_id
          { stopped_at := now, reason := reason, stopped_by := "FANZDASH_CENTRAL" } ∧
      (emergency_stop_platform dbOk now s platform_id reason).1.audit_logs =
        s.audit_logs ++
          (if dbOk then
            [{ actor_id := "FANZDASH_CENTRAL", action := "emergency_stop",
               target_type := some "platform", target_id := some platform_id,
               metadata := [("reason", reason)], created_at := now }]
          else [])) := by
  constructor
  · intro h
    simp [emergency_stop_platform, h]
  · intro h
    cases dbOk <;>
      simp [emergency_stop_platform, h, log_audit_action]

/-- Closed instance of `emergency_stop_registry_check`: the unknown id
`"unknown-id"` is rejected with no state change, and the registered id
`"fanzdash"` is stopped with one audit entry. -/
theorem emergency_stop_registry_check_witness :
    (emergency_stop_platform true 0
        { platforms := ["fanzdash"], feature_flags := [],
          emergency_stops := [], audit_logs := [] } "unknown-id" "x" =
      ({ platforms := ["fanzdash"], feature_flags := [],
         emergency_stops := [], audit_logs := [] },
       Except.error ("Unknown platform: " ++ "unknown-id"))) ∧
    (emergency_stop_platform true 7
        { platforms := ["fanzdash"], feature_flags := [],
          emergency_stops := [], audit_logs := [] } "fanzdash" "maintenance").2 =
      Except.ok () :=
  ⟨(emergency_stop_registry_check true 0
      { platforms := ["fanzdash"], feature_flags := [],
        emergency_stops := [], audit_logs := [] } "unknown-id" "x").1
      (by decide),
   ((emergency_stop_registry_check true 7
      { platforms := ["fanzdash"], feature_flags := [],
        emergency_stops := [], audit_logs := [] } "fanzdash" "maintenance").2
      (by decide)).1⟩

/-- C4: each of the two audited mutations commits its primary state change
unconditionally and attempts exactly one audit append with the documented
action; a failing audit write (`dbOk = false`) is swallowed inside
`log_audit_action`, so the mutation is neither rolled back nor blocked and
the caller sees the same success as when the write lands. -/
theorem audited_mutations_best_effort
    (dbOk : Bool) (now : Nat) (s : CommandState)
    (platform_id feature reason : String) (enabled : Bool) :
    ((set_feature_flag dbOk now s platform_id feature enabled reason).feature_flags =
        dictInsert s.feature_flags (platform_id ++ ":" ++ feature)
          { enabled := enabled, set_at := now, reason := reason } ∧
     (set_feature_flag dbOk now s platform_id feature enabled reason).audit_logs =
        s.audit_logs ++
          (if dbOk then
            [{ actor_id := "FANZDASH_CENTRAL", action := "feature_flag_changed",
               target_type := some "feature",
               target_id := some (platform_id ++ ":" ++ feature),
               metadata := [("enabled", toString enabled), ("reason", reason)],
               created_at := now }]
          else [])) ∧
    (platform_id ∈ s.platforms →
      (emergency_stop_platform dbOk now s platform_id reason).2 = Except.ok () ∧
      (emergency_stop_platform dbOk now s platform_id reason).1.emergency_stops =
        dictInsert s.emergency_stops platform_id
          { stopped_at := now, reason := reason, stopped_by := "FANZDASH_CENTRAL" } ∧
      ((emergency_stop_platform dbOk now s platform_id reason).1.audit_logs.length =
        s.audit_logs.length + if dbOk then 1 else 0)) := by
  refine ⟨⟨?_, ?_⟩, ?_⟩
  · cases dbOk <;> rfl
  · cases dbOk <;> simp [set_feature_flag, log_audit_action]
  · intro h
    cases dbOk <;>
      simp [emergency_stop_platform, h, log_audit_action]

/-- Closed instance of `audited_mutations_best_effort`: with a failing
audit store the flag mutation still lands and no audit entry is written;
the registered-platform stop acknowledges with exactly one entry when the
store works. -/
theorem audited_mutations_best_effort_witness :
    ((set_feature_flag false 3
        { platforms := ["fanzdash"], feature_flags := [],
          emergency_stops := [], audit_logs := [] }
        "fanzdash" "beta" true "test").feature_flags =
      dictInsert [] ("fanzdash" ++ ":" ++ "beta")
        { enabled := true, set_at := 3, reason := "test" }) ∧
    ((emergency_stop_platform true 3
        { platforms := ["fanzdash"], feature_flags := [],
          emergency_stops := [], audit_logs := [] }
        "fanzdash" "test").1.audit_logs.length = 0 + 1) :=
  ⟨(audited_mutations_best_effort false 3
      { platforms := ["fanzdash"], feature_flags := [],
        emergency_stops := [], audit_logs := [] }
      "fanzdash" "beta" "test" true).1.1,
   by
    have h := (audited_mutations_best_effort true 3
      { platforms := ["fanzdash"], feature_flags := [],
        emergency_stops := [], audit_logs := [] }
      "fanzdash" "beta" "test" true).2 (by decide)
    simpa using h.2.2⟩

/-- Length bound of the Python truncation `str(e)[:100]`. -/
theorem truncate100_length_le (e : String) : (truncate100 e).length ≤ 100 := by
  show (e.data.take 100).length ≤ 100
  simp [List.length_take]

/-- C2 counterexample: a reachable endpoint answering HTTP 500 is
classified `"unhealthy"` by `check_service_health`, not `"degraded"` as
the claim states. -/
theorem probe_degraded_wording_counterexample :
    (check_service_health "api_gateway"
        { url := "http://localhost:8080/graphql", critical := true }
        (Except.ok 500)).status = "unhealthy" ∧
    (check_service_health "api_gateway"
        { url := "http://localhost:8080/graphql", critical := true }
        (Except.ok 500)).status ≠ "degraded" := by
  exact ⟨rfl, by decide⟩

/-- C2 amended: a probe never propagates the transport error — every
outcome yields a `ServiceCheckResult`.  A reachable endpoint with HTTP 200
is `"healthy"`, a reachable endpoint with any other code is `"unhealthy"`
(the source's label for the claim's `degraded`), and any transport failure
is `"down"` with the error detail truncated to at most 100 characters. -/
theorem probe_never_propagates
    (name : String) (config : ServiceConfig) (outcome : ProbeOutcome) :
    (∀ code, outcome = Except.ok code → code = 200 →
      (check_service_health name config outcome).status = "healthy") ∧
    (∀ code, outcome = Except.ok code → code ≠ 200 →
      (check_service_health name config outcome).status = "unhealthy") ∧
    (∀ e, outcome = Except.error e →
      (check_service_health name config outcome).status = "down" ∧
      ∃ d, (check_service_health name config outcome).error = some d ∧
        d.length ≤ 100) := by
  refine ⟨?_, ?_, ?_⟩
  · rintro code rfl h200
    simp [check_service_health, h200]
  · rintro code rfl h200
    simp [check_service_health, h200]
  · rintro e rfl
    exact ⟨rfl, truncate100 e, rfl, truncate100_length_le e⟩

/-- Closed instance of `probe_never_propagates`: a timeout probing
`main_app` resolves to a `"down"` result with a bounded error detail. -/
theorem probe_never_propagates_witness :
    (check_service_health "main_app"
        { url := "http://localhost:5000", critical := true }
        (Except.error "Connection timeout")).status = "down" ∧
    ∃ d, (check_service_health "main_app"
        { url := "http://localhost:5000", critical := true }
        (Except.error "Connection timeout")).error = some d ∧
      d.length ≤ 100 :=
  (probe_never_propagates "main_app"
    { url := "http://localhost:5000", critical := true }
    (Except.error "Connection timeout")).2.2 "Connection timeout" rfl

/-- C6 counterexample: `set_feature_flag` performs no registry check — on
a state whose registry is the eight FANZ platforms, the unregistered id
`"unknown-id"` is silently accepted and its flag upserted, with no
`Unknown platform` failure (the function is total and always returns the
mutated state). -/
theorem feature_flag_no_registry_check_counterexample :
    ("unknown-id" ∉
      (["fanzdash", "fanzfinance", "fanzelitetube", "fanzmeet", "fanzcommerce",
        "fanzhubvault", "fanzprotect", "fanzsocial"] : List String)) ∧
    dictGet (set_feature_flag true 0
        { platforms := ["fanzdash", "fanzfinance", "fanzelitetube", "fanzmeet",
            "fanzcommerce", "fanzhubvault", "fanzprotect", "fanzsocial"],
          feature_flags := [], emergency_stops := [], audit_logs := [] }
        "unknown-id" "beta" true "test").feature_flags
      ("unknown-id" ++ ":" ++ "beta") =
      some { enabled := true, set_at := 0, reason := "test" } := by
  exact ⟨by decide, by decide⟩

/-- C6 amended: `set_feature_flag` never surfaces an `Unknown platform`
error: even for a platform id absent from the Service Registry the flag is
upserted exactly as for a registered one, and the call cannot fail (only
`emergency_stop_platform` checks registration). -/
theorem set_feature_flag_skips_registry
    (dbOk : Bool) (now : Nat) (s : CommandState)
    (platform_id feature reason : String) (enabled : Bool)
    (_h : platform_id ∉ s.platforms) :
    (set_feature_flag dbOk now s platform_id feature enabled reason).feature_flags =
      dictInsert s.feature_flags (platform_id ++ ":" ++ feature)
        { enabled := enabled, set_at := now, reason := reason } := by
  cases dbOk <;> rfl

/-- Closed instance of `set_feature_flag_skips_registry` at an empty
registry. -/
theorem set_feature_flag_skips_registry_witness :
    (set_feature_flag true 5
        { platforms := [], feature_flags := [], emergency_stops := [],
          audit_logs := [] } "ghost" "beta" false "why").feature_flags =
      dictInsert [] ("ghost" ++ ":" ++ "beta")
        { enabled := false, set_at := 5, reason := "why" } :=
  set_feature_flag_skips_registry true 5
    { platforms := [], feature_flags := [], emergency_stops := [],
      audit_logs := [] } "ghost" "beta" "why" false (by decide)

/-- C7 counterexample: recommendations keep the input order of down
services — a non-critical down service listed before a critical down
service yields its `Warning` message first, so critical messages are not
placed first as the claim states. -/
theorem recommendations_order_counterexample :
    generate_recommendations
      [check_service_health "messaging_service"
        { url := "http://localhost:8004/api/messages/health", critical := false }
        (Except.error "timeout"),
       check_service_health "payment_service"
        { url := "http://localhost:8003/api/payments/health", critical := true }
        (Except.error "refused")]
      { status := "healthy" } =
      ["Warning: messaging_service is down - some features unavailable",
       "CRITICAL: payment_service is down - system functionality impaired"] ∧
    (generate_recommendations
      [check_service_health "messaging_service"
        { url := "http://localhost:8004/api/messages/health", critical := false }
        (Except.error "timeout"),
       check_service_health "payment_service"
        { url := "http://localhost:8003/api/payments/health", critical := true }
        (Except.error "refused")]
      { status := "healthy" }).head? ≠
      some "CRITICAL: payment_service is down - system functionality impaired" := by
  exact ⟨by decide, by decide⟩

/-- C7 amended: `generate_recommendations` is a pure function of the
check results and the database health (hence deterministic), is never
empty, contains one `CRITICAL`/`Warning` message per down service (in
input order for equally-placed services, critical ones not moved first),
one storage message when the database is unhealthy, and collapses to the
single positive message when every service is healthy and the database is
healthy. -/
theorem recommendations_spec
    (service_checks : List ServiceCheckResult) (db_health : DbHealth) :
    generate_recommendations service_checks db_health ≠ [] ∧
    (∀ s ∈ service_checks, s.status = "down" →
      (if s.critical then
        "CRITICAL: " ++ s.service ++ " is down - system functionality impaired"
      else
        "Warning: " ++ s.service ++ " is down - some features unavailable")
        ∈ generate_recommendations service_checks db_health) ∧
    (db_health.status ≠ "healthy" →
      "Database connection issues detected - check DATABASE_URL"
        ∈ generate_recommendations service_checks db_health) ∧
    ((∀ s ∈ service_checks, s.status = "healthy") →
      db_health.status = "healthy" →
      generate_recommendations service_checks db_health =
        ["All services operational - system ready for production"]) := by
  set recs1 := (service_checks.filter fun t => t.status = "down").map
    (fun t => if t.critical then
        "CRITICAL: " ++ t.service ++ " is down - system functionality impaired"
      else
        "Warning: " ++ t.service ++ " is down - some features unavailable")
    with hrecs1
  set dbrec : List String := if db_health.status ≠ "healthy" then
      ["Database connection issues detected - check DATABASE_URL"] else []
    with hdbrec
  set posrec : List String :=
    if (service_checks.filter fun t => t.status = "healthy").length =
        service_checks.length then
      ["All services operational - system ready for production"] else []
    with hposrec
  have hgen : generate_recommendations service_checks db_health =
      if recs1 ++ dbrec ++ posrec = [] then ["System operating normally"]
      else recs1 ++ dbrec ++ posrec := rfl
  refine ⟨?_, ?_, ?_, ?_⟩
  · rw [hgen]
    split
    · simp
    next hne => exact hne
  · intro s hs hdown
    have hmem : (if s.critical then
        "CRITICAL: " ++ s.service ++ " is down - system functionality impaired"
      else
        "Warning: " ++ s.service ++ " is down - some features unavailable")
        ∈ recs1 :=
      List.mem_map.mpr ⟨s, List.mem_filter.mpr ⟨hs, by simp [hdown]⟩, rfl⟩
    have hmem3 := List.mem_append_left posrec (List.mem_append_left dbrec hmem)
    rw [hgen, if_neg (List.ne_nil_of_mem hmem3)]
    exact hmem3
  · intro hdb
    have hmem2 : "Database connection issues detected - check DATABASE_URL"
        ∈ recs1 ++ dbrec :=
      List.mem_append_right recs1 (by simp [hdbrec, hdb])
    have hmem3 := List.mem_append_left posrec hmem2
    rw [hgen, if_neg (List.ne_nil_of_mem hmem3)]
    exact hmem3
  · intro hall hdb
    have hdowns : (service_checks.filter fun t => t.status = "down") = [] := by
      refine List.filter_eq_nil_iff.mpr ?_
      intro t ht
      simp [hall t ht]
    have hhealthy : (service_checks.filter fun t => t.status = "healthy") =
        service_checks := by
      refine List.filter_eq_self.mpr ?_
      intro t ht
      simp [hall t ht]
    rw [hgen, hrecs1, hdbrec, hposrec, hdowns, hhealthy]
    simp [hdb]

/-- Closed instance of `recommendations_spec`: an all-healthy check set
with a healthy database collapses to the single positive message. -/
theorem recommendations_spec_witness :
    generate_recommendations
      [check_service_health "main_app"
        { url := "http://localhost:5000", critical := true } (Except.ok 200)]
      { status := "healthy" } =
      ["All services operational - system ready for production"] :=
  (recommendations_spec
    [check_service_health "main_app"
      { url := "http://localhost:5000", critical := true } (Except.ok 200)]
    { status := "healthy" }).2.2.2 (by decide) rfl

/-- The per-check boolean of `critical_services_up`, as a proposition. -/
theorem check_ok_iff (s : ServiceCheckResult) :
    ((s.status = "healthy" || s.status = "down")
      && !(s.critical && s.status = "down")) = true ↔
    (s.status = "healthy" ∨ s.status = "down") ∧
      ¬(s.critical = true ∧ s.status = "down") := by
  rcases Bool.eq_false_or_eq_true s.critical with h3 | h3 <;>
    by_cases h1 : s.status = "healthy" <;>
      by_cases h2 : s.status = "down" <;>
        simp [h1, h2, h3]

/-- The list-level form of `critical_services_up`. -/
theorem critical_services_up_iff (service_checks : List ServiceCheckResult) :
    critical_services_up service_checks = true ↔
      ∀ s ∈ service_checks, (s.status = "healthy" ∨ s.status = "down") ∧
        ¬(s.critical = true ∧ s.status = "down") := by
  unfold critical_services_up
  rw [List.all_eq_true]
  constructor
  · intro h s hs
    exact (check_ok_iff s).mp (h s hs)
  · intro h s hs
    exact (check_ok_iff s).mpr (h s hs)

/-- Reduction of `overall_status` to the per-check condition. -/
theorem overall_status_eq_operational_iff
    (service_checks : List ServiceCheckResult) :
    overall_status service_checks = "operational" ↔
      ∀ s ∈ service_checks, (s.status = "healthy" ∨ s.status = "down") ∧
        ¬(s.critical = true ∧ s.status = "down") := by
  rw [← critical_services_up_iff]
  unfold overall_status
  by_cases h : critical_services_up service_checks = true <;> simp [h]

/-- The critical-issue list of one platform iteration is empty exactly
when the platform is non-critical or probed healthy. -/
theorem classify_platform_issues_eq_nil_iff
    (p : FanzPlatform) (o : ProbeOutcome) :
    (classify_platform p o).2 = [] ↔
      ¬(p.critical = true ∧ (classify_platform p o).1 ≠ "healthy") := by
  cases o with
  | ok code =>
    by_cases h200 : code = 200 <;> by_cases hc : p.critical <;>
      simp [classify_platform, h200, hc]
  | error e =>
    by_cases hc : p.critical <;> simp [classify_platform, hc]

/-- Reduction of `ecosystem_status` to the per-platform condition. -/
theorem ecosystem_status_eq_critical_iff
    (inputs : List (FanzPlatform × ProbeOutcome)) :
    ecosystem_status inputs = "critical" ↔
      ∃ pe ∈ inputs, pe.1.critical = true ∧
        (classify_platform pe.1 pe.2).1 ≠ "healthy" := by
  unfold ecosystem_status
  by_cases h : collect_critical_issues inputs = []
  · rw [if_pos h]
    simp only [collect_critical_issues] at h
    constructor
    · intro hco
      exact absurd hco (by decide)
    · rintro ⟨pe, hpe, hcrit, hstatus⟩
      have hnil := (List.flatMap_eq_nil_iff.mp h) pe hpe
      exact absurd ⟨hcrit, hstatus⟩
        ((classify_platform_issues_eq_nil_iff pe.1 pe.2).mp hnil)
  · rw [if_neg h]
    simp only [collect_critical_issues] at h
    constructor
    · intro _
      obtain ⟨msg, hmsg⟩ := List.exists_mem_of_ne_nil _ h
      obtain ⟨pe, hpe, hmem⟩ := List.mem_flatMap.mp hmsg
      refine ⟨pe, hpe, ?_⟩
      by_contra hcontra
      have hnil := (classify_platform_issues_eq_nil_iff pe.1 pe.2).mpr hcontra
      rw [hnil] at hmem
      exact absurd hmem (List.not_mem_nil msg)
    · intro _
      rfl

/-- C1 counterexample: a single critical service probed with a transport
failure — a result set with one `critical ∧ down` entry — makes
`run_full_health_check` report `overall_status = "degraded"`, not
`"critical"` as the claim states. -/
theorem overall_status_counterexample :
    ∃ r, run_full_health_check
        [("payment_service",
          { url := "http://localhost:8003/api/payments/health", critical := true },
          Except.error "timeout")]
        { status := "healthy" } = some r ∧
      (r.details.any fun s => s.critical && s.status = "down") = true ∧
      r.overall_status = "degraded" ∧
      r.overall_status ≠ "critical" := by
  refine ⟨_, rfl, ?_, ?_, ?_⟩ <;> decide

/-- C1 amended: the two-valued overall status of
`run_full_health_check` is `"operational"` exactly when every result has
status `"healthy"` or `"down"` and no critical result is `"down"`, and
`"degraded"` otherwise — it is never `"critical"`; separately, the
two-valued `ecosystem_status` of `run_ecosystem_health_check` is
`"critical"` exactly when some critical platform probed non-healthy
(degraded or down), and `"healthy"` otherwise. -/
theorem overall_status_policy
    (service_checks : List ServiceCheckResult)
    (inputs : List (FanzPlatform × ProbeOutcome)) :
    (overall_status service_checks = "operational" ↔
      ∀ s ∈ service_checks, (s.status = "healthy" ∨ s.status = "down") ∧
        ¬(s.critical = true ∧ s.status = "down")) ∧
    (overall_status service_checks = "operational" ∨
      overall_status service_checks = "degraded") ∧
    (ecosystem_status inputs = "critical" ↔
      ∃ pe ∈ inputs, pe.1.critical = true ∧
        (classify_platform pe.1 pe.2).1 ≠ "healthy") ∧
    (ecosystem_status inputs = "healthy" ∨
      ecosystem_status inputs = "critical") := by
  refine ⟨overall_status_eq_operational_iff service_checks, ?_,
    ecosystem_status_eq_critical_iff inputs, ?_⟩
  · unfold overall_status
    by_cases h : critical_services_up service_checks = true <;> simp [h]
  · unfold ecosystem_status
    by_cases h : collect_critical_issues inputs = [] <;> simp [h]

/-- C8: every critical platform probed non-healthy contributes exactly one
human-readable line to `critical_issues`, and that line appears in the
report; when the non-healthy status is `"down"` the ecosystem status of
the same report is `"critical"`. -/
theorem critical_issue_reporting
    (inputs : List (FanzPlatform × ProbeOutcome)) :
    (∀ pe ∈ inputs, pe.1.critical = true →
      (classify_platform pe.1 pe.2).1 ≠ "healthy" →
      ∃ msg, (classify_platform pe.1 pe.2).2 = [msg] ∧
        msg ∈ (run_ecosystem_health_check inputs).critical_issues) ∧
    (∀ pe ∈ inputs, pe.1.critical = true →
      (classify_platform pe.1 pe.2).1 = "down" →
      (run_ecosystem_health_check inputs).ecosystem_status = "critical") := by
  constructor
  · intro pe hpe hcrit hstatus
    have hone : ∃ msg, (classify_platform pe.1 pe.2).2 = [msg] := by
      rcases hsnd : pe.2 with e | code
      · refine ⟨pe.1.name ++ " is down: " ++ e, ?_⟩
        simp [classify_platform, hcrit]
      · by_cases h200 : code = 200
        · refine absurd ?_ hstatus
          rw [hsnd]
          simp [classify_platform, h200]
        · refine ⟨pe.1.name ++ " is degraded", ?_⟩
          simp [classify_platform, h200, hcrit]
    obtain ⟨msg, hmsg⟩ := hone
    refine ⟨msg, hmsg, ?_⟩
    show msg ∈ collect_critical_issues inputs
    exact List.mem_flatMap.mpr ⟨pe, hpe, by simp [hmsg]⟩
  · intro pe hpe hcrit hstatus
    show ecosystem_status inputs = "critical"
    refine (ecosystem_status_eq_critical_iff inputs).mpr ⟨pe, hpe, hcrit, ?_⟩
    rw [hstatus]
    decide

/-- Closed instance of `critical_issue_reporting`: the critical platform
`fanzdash` probed with a timeout yields a `"down"` issue line present in
the report and an ecosystem status of `"critical"`. -/
theorem critical_issue_reporting_witness :
    (∃ msg, (classify_platform
        { platform_id := "fanzdash", name := "FanzDash Control",
          url := "http://localhost:3000", critical := true }
        (Except.error "timeout")).2 = [msg] ∧
      msg ∈ (run_ecosystem_health_check
        [({ platform_id := "fanzdash", name := "FanzDash Control",
            url := "http://localhost:3000", critical := true },
          Except.error "timeout")]).critical_issues) ∧
    (run_ecosystem_health_check
        [({ platform_id := "fanzdash", name := "FanzDash Control",
            url := "http://localhost:3000", critical := true },
          Except.error "timeout")]).ecosystem_status = "critical" :=
  ⟨(critical_issue_reporting
      [({ platform_id := "fanzdash", name := "FanzDash Control",
          url := "http://localhost:3000", critical := true },
        Except.error "timeout")]).1
      _ (List.mem_singleton_self _) rfl (by decide),
   (critical_issue_reporting
      [({ platform_id := "fanzdash", name := "FanzDash Control",
          url := "http://localhost:3000", critical := true },
        Except.error "timeout")]).2
      _ (List.mem_singleton_self _) rfl rfl⟩

/-- Bounds of Python `round(x, 2)` on a value already in `[0, 100]`. -/
theorem round2_bounds (x : ℚ) (h0 : 0 ≤ x) (h1 : x ≤ 100) :
    0 ≤ round2 x ∧ round2 x ≤ 100 := by
  unfold round2
  have hlow : (0 : ℚ) ≤ ((round (x * 100) : ℤ) : ℚ) := by
    have hs : x * 100 - 1 / 2 < ((round (x * 100) : ℤ) : ℚ) :=
      sub_half_lt_round (x * 100)
    have hq : (-1 : ℚ) < ((round (x * 100) : ℤ) : ℚ) := by linarith
    have hz : (-1 : ℤ) < round (x * 100) := by exact_mod_cast hq
    have hz0 : (0 : ℤ) ≤ round (x * 100) := by omega
    exact_mod_cast hz0
  have hhigh : ((round (x * 100) : ℤ) : ℚ) ≤ 10000 := by
    have hs : ((round (x * 100) : ℤ) : ℚ) ≤ x * 100 + 1 / 2 :=
      round_le_add_half (x * 100)
    have hq : ((round (x * 100) : ℤ) : ℚ) < 10001 := by linarith
    have hz : round (x * 100) < (10001 : ℤ) := by exact_mod_cast hq
    have hz1 : round (x * 100) ≤ (10000 : ℤ) := by omega
    exact_mod_cast hz1
  constructor
  · exact div_nonneg hlow (by norm_num)
  · rw [div_le_iff₀ (by norm_num : (0 : ℚ) < 100)]
    linarith

/-- C3 counterexample: with an empty result set `run_full_health_check`
hits the unguarded division at line 174 and raises `ZeroDivisionError`
(`none`), instead of reporting a percentage defined as `0`. -/
theorem percentage_empty_counterexample :
    run_full_health_check [] { status := "healthy" } = none ∧
    percentage 0 0 = none ∧
    percentage 0 0 ≠ some 0 := by
  refine ⟨rfl, rfl, by decide⟩

/-- C3 amended: for every non-empty result set the report exists, its
percentage equals `round(healthyCount / totalCount * 100, 2)` and lies in
`[0, 100]`; for the empty set the division is unguarded and the check
faults instead of reporting `0`. -/
theorem percentage_bounds
    (inputs : List (String × ServiceConfig × ProbeOutcome))
    (db_health : DbHealth) (h : inputs ≠ []) :
    ∃ r, run_full_health_check inputs db_health = some r ∧
      r.total = inputs.length ∧
      r.healthy ≤ r.total ∧
      r.percentage = round2 ((r.healthy : ℚ) / (r.total : ℚ) * 100) ∧
      0 ≤ r.percentage ∧ r.percentage ≤ 100 := by
  set checks := inputs.map fun x => check_service_health x.1 x.2.1 x.2.2
    with hchecks
  have hlen : checks.length = inputs.length := by
    rw [hchecks]
    exact List.length_map _ _
  have hne0 : checks.length ≠ 0 := by
    rw [hlen]
    intro h0
    exact h (List.length_eq_zero.mp h0)
  have hperc : percentage (healthy_services checks) checks.length =
      some (round2 ((healthy_services checks : ℚ) / (checks.length : ℚ) * 100)) := by
    unfold percentage
    rw [if_neg hne0]
  have hfilter : healthy_services checks ≤ checks.length :=
    List.length_filter_le _ _
  have ht : (0 : ℚ) < (checks.length : ℚ) := by
    exact_mod_cast Nat.pos_of_ne_zero hne0
  have hh : (healthy_services checks : ℚ) ≤ (checks.length : ℚ) := by
    exact_mod_cast hfilter
  have hx0 : 0 ≤ (healthy_services checks : ℚ) / (checks.length : ℚ) * 100 := by
    positivity
  have hx1 : (healthy_services checks : ℚ) / (checks.length : ℚ) * 100 ≤ 100 := by
    have hd := (div_le_one ht).mpr hh
    linarith
  obtain ⟨hb0, hb1⟩ := round2_bounds _ hx0 hx1
  refine ⟨{ overall_status := overall_status checks
            healthy := healthy_services checks
            total := checks.length
            percentage :=
              round2 ((healthy_services checks : ℚ) / (checks.length : ℚ) * 100)
            details := checks
            database := db_health
            recommendations := generate_recommendations checks db_health },
    ?_, hlen, hfilter, rfl, hb0, hb1⟩
  simp only [run_full_health_check, ← hchecks, hperc]

/-- Closed instance of `percentage_bounds`: a single healthy service gives
a defined percentage within bounds. -/
theorem percentage_bounds_witness :
    ∃ r, run_full_health_check
        [("main_app", { url := "http://localhost:5000", critical := true },
          Except.ok 200)] { status := "healthy" } = some r ∧
      r.total = 1 ∧
      r.healthy ≤ r.total ∧
      r.percentage = round2 ((r.healthy : ℚ) / (r.total : ℚ) * 100) ∧
      0 ≤ r.percentage ∧ r.percentage ≤ 100 :=
  percentage_bounds
    [("main_app", { url := "http://localhost:5000", critical := true },
      Except.ok 200)] { status := "healthy" } (List.cons_ne_nil _ _)

end FanzDash
